import Mathlib

/-!
# Typed namespace registry over a generic storage backend

Shallow embedding of `pkg/registry/namespace/registry.go`.

* Go functions are state transformers that either return a value or panic
  (`M σ α`); the state `σ` is whatever the backend keeps.
* An interface value of type `runtime.Object` is either the nil interface or a
  value with a dynamic type (`Object`); a Go pointer is an `Option` whose `none`
  is the nil pointer, so a nil `*api.Namespace` stored in an interface is the
  non-nil interface value `Object.Namespace none`, as in Go.
* A Go `error` is an `Option`: `none` is the nil error.
* The types of the packages `api`, `labels`, `fields` and `watch` are not part of
  the file; the ones the facade treats as opaque are parameters (`Api`).
-/

namespace NamespaceRegistry

/-- The types the registry takes from other packages and never inspects:
`api.Context`, `labels.Selector`, `fields.Selector` with the value of
`fields.Everything()`, the non-nil values of `error`, what a non-nil
`*api.Namespace`, `*api.NamespaceList` and `*api.DeleteOptions` point to, and the
values of every other dynamic type a `runtime.Object` may hold. -/
structure Api where
  Context : Type
  LabelSelector : Type
  FieldSelector : Type
  Everything : FieldSelector
  Error : Type
  Namespace : Type
  NamespaceList : Type
  DeleteOptions : Type
  Other : Type

/-- An interface value of type `runtime.Object`: the nil interface, or a value
whose dynamic type is `*api.Namespace`, `*api.NamespaceList` or anything else.
The pointer held under the first two dynamic types may itself be nil. -/
inductive Object (A : Api) where
  | nil : Object A
  | Namespace (p : Option A.Namespace) : Object A
  | NamespaceList (p : Option A.NamespaceList) : Object A
  | other (o : A.Other) : Object A

/-- Modelled from the spec: the kinds of change event of a watch session
(add, modify, delete); `watch.EventType` is declared outside this file. -/
inductive EventType where
  | Added
  | Modified
  | Deleted
  deriving DecidableEq, Repr

/-- Modelled from the spec: one change event of a watch session, its kind and
the generic object it carries; `watch.Event` is declared outside this file. -/
structure Event (A : Api) where
  type : EventType
  Object : Object A

/-- Modelled from the spec: a watch session, "an ordered stream of change
events"; `watch.Interface` is declared outside this file. `ResultChan` is what
the session delivers, in order. -/
structure WatchSession (A : Api) where
  ResultChan : List (Event A)

/-- A value of the interface type `watch.Interface`; `none` is the nil
interface. -/
abbrev WatchInterface (A : Api) := Option (WatchSession A)

/-- How a Go call ends: it returns a value, or it panics. -/
inductive Outcome (α : Type) where
  | returned (a : α) : Outcome α
  | panicked : Outcome α

/-- A Go function over a backend state `σ`: from the state before the call to
the way the call ends and the state after it. -/
def M (σ α : Type) : Type := σ → Outcome α × σ

/-- Returning a value leaves the state alone. -/
def M.pure {σ α : Type} (a : α) : M σ α := fun st => (Outcome.returned a, st)

/-- A panic leaves the state as it was when the panic was raised. -/
def M.panic {σ α : Type} : M σ α := fun st => (Outcome.panicked, st)

/-- Sequencing: a panic of the first part ends the whole computation. -/
def M.bind {σ α β : Type} (m : M σ α) (f : α → M σ β) : M σ β := fun st =>
  match m st with
  | (Outcome.returned a, st1) => f a st1
  | (Outcome.panicked, st1) => (Outcome.panicked, st1)

instance instMonadM (σ : Type) : Monad (M σ) where
  pure := M.pure
  bind := M.bind

/-- The interface `Storage` (lines 46-54): the embedded `RESTGracefulDeleter`,
`RESTLister`, `RESTGetter` and `ResourceWatcher` give `Delete`, `List`, `Get`
and `Watch`, whose signatures are the calls the facade makes of them. -/
structure Storage (A : Api) (σ : Type) where
  Delete : A.Context → String → Option A.DeleteOptions → M σ (Object A × Option A.Error)
  List : A.Context → A.LabelSelector → A.FieldSelector → M σ (Object A × Option A.Error)
  Get : A.Context → String → M σ (Object A × Option A.Error)
  Watch : A.Context → A.LabelSelector → A.FieldSelector → String →
    M σ (WatchInterface A × Option A.Error)
  Create : A.Context → Object A → M σ (Object A × Option A.Error)
  Update : A.Context → Object A → M σ (Object A × Bool × Option A.Error)

/-- The interface `Registry` (lines 29-42). -/
structure Registry (A : Api) (σ : Type) where
  ListNamespaces : A.Context → A.LabelSelector → M σ (Option A.NamespaceList × Option A.Error)
  WatchNamespaces : A.Context → A.LabelSelector → A.FieldSelector → String →
    M σ (WatchInterface A × Option A.Error)
  GetNamespace : A.Context → String → M σ (Option A.Namespace × Option A.Error)
  CreateNamespace : A.Context → Option A.Namespace → M σ (Option A.Error)
  UpdateNamespace : A.Context → Option A.Namespace → M σ (Option A.Error)
  DeleteNamespace : A.Context → String → M σ (Option A.Error)

/-- The struct `storage` (lines 57-59), which embeds a `Storage`. -/
structure storage (A : Api) (σ : Type) where
  Storage : Storage A σ

/-- The type assertion `obj.(*api.NamespaceList)`: the pointer held by the
interface when its dynamic type is `*api.NamespaceList`, a panic otherwise (the
nil interface included). -/
def assertNamespaceList {A : Api} {σ : Type} : Object A → M σ (Option A.NamespaceList)
  | Object.NamespaceList p => M.pure p
  | _ => M.panic

/-- The type assertion `obj.(*api.Namespace)`. -/
def assertNamespace {A : Api} {σ : Type} : Object A → M σ (Option A.Namespace)
  | Object.Namespace p => M.pure p
  | _ => M.panic

/-- Lines 67-73. -/
def storage.ListNamespaces {A : Api} {σ : Type} (s : storage A σ) (ctx : A.Context)
    (label : A.LabelSelector) : M σ (Option A.NamespaceList × Option A.Error) := do
  let (obj, err) ← s.Storage.List ctx label A.Everything
  match err with
  | some e => return (none, some e)
  | none =>
    let l ← assertNamespaceList obj
    return (l, none)

/-- Lines 75-77. -/
def storage.WatchNamespaces {A : Api} {σ : Type} (s : storage A σ) (ctx : A.Context)
    (label : A.LabelSelector) (field : A.FieldSelector) (resourceVersion : String) :
    M σ (WatchInterface A × Option A.Error) :=
  s.Storage.Watch ctx label field resourceVersion

/-- Lines 79-85. -/
def storage.GetNamespace {A : Api} {σ : Type} (s : storage A σ) (ctx : A.Context)
    (namespaceName : String) : M σ (Option A.Namespace × Option A.Error) := do
  let (obj, err) ← s.Storage.Get ctx namespaceName
  match err with
  | some e => return (none, some e)
  | none =>
    let n ← assertNamespace obj
    return (n, none)

/-- Lines 87-90. The argument becomes a `runtime.Object` of dynamic type
`*api.Namespace`. -/
def storage.CreateNamespace {A : Api} {σ : Type} (s : storage A σ) (ctx : A.Context)
    (ns : Option A.Namespace) : M σ (Option A.Error) := do
  let (_, err) ← s.Storage.Create ctx (Object.Namespace ns)
  return err

/-- Lines 92-95. -/
def storage.UpdateNamespace {A : Api} {σ : Type} (s : storage A σ) (ctx : A.Context)
    (ns : Option A.Namespace) : M σ (Option A.Error) := do
  let (_, _, err) ← s.Storage.Update ctx (Object.Namespace ns)
  return err

/-- Lines 97-100. -/
def storage.DeleteNamespace {A : Api} {σ : Type} (s : storage A σ) (ctx : A.Context)
    (namespaceID : String) : M σ (Option A.Error) := do
  let (_, err) ← s.Storage.Delete ctx namespaceID none
  return err

/-- Lines 63-65: `&storage{s}` seen through the interface `Registry`. -/
def NewRegistry {A : Api} {σ : Type} (s : Storage A σ) : M σ (Registry A σ) :=
  let r : storage A σ := storage.mk s
  M.pure
    (Registry.mk r.ListNamespaces r.WatchNamespaces r.GetNamespace r.CreateNamespace
      r.UpdateNamespace r.DeleteNamespace)

/-- The registry `NewRegistry` returns for a backend. -/
def registryOf {A : Api} {σ : Type} (s : Storage A σ) : Registry A σ :=
  Registry.mk (storage.mk s).ListNamespaces (storage.mk s).WatchNamespaces
    (storage.mk s).GetNamespace (storage.mk s).CreateNamespace
    (storage.mk s).UpdateNamespace (storage.mk s).DeleteNamespace

/-- Whether an interface value is the nil interface (`obj == nil`). -/
def Object.isNil {A : Api} : Object A → Bool
  | Object.nil => true
  | _ => false

/-- Whether the dynamic type of an interface value is `*api.Namespace`. -/
def Object.isNamespace {A : Api} : Object A → Bool
  | Object.Namespace _ => true
  | _ => false

/-- Whether the dynamic type of an interface value is `*api.NamespaceList`. -/
def Object.isNamespaceList {A : Api} : Object A → Bool
  | Object.NamespaceList _ => true
  | _ => false

/-! ## A backend that logs the calls it receives -/

/-- One call received by a backend, with its arguments. -/
inductive Call (A : Api) where
  | Delete (ctx : A.Context) (name : String) (options : Option A.DeleteOptions) : Call A
  | List (ctx : A.Context) (label : A.LabelSelector) (field : A.FieldSelector) : Call A
  | Get (ctx : A.Context) (name : String) : Call A
  | Watch (ctx : A.Context) (label : A.LabelSelector) (field : A.FieldSelector)
      (resourceVersion : String) : Call A
  | Create (ctx : A.Context) (obj : Object A) : Call A
  | Update (ctx : A.Context) (obj : Object A) : Call A

/-- Run a backend method on the first component of the state and append the
call to the log kept in the second, however the method ends. -/
def record {A : Api} {σ α : Type} (c : Call A) (m : M σ α) : M (σ × List (Call A)) α :=
  fun st => ((m st.1).1, ((m st.1).2, st.2 ++ [c]))

/-- The backend `b` with a log of the calls received in front of it. -/
def recording {A : Api} {σ : Type} (b : Storage A σ) : Storage A (σ × List (Call A)) where
  Delete ctx name options := record (Call.Delete ctx name options) (b.Delete ctx name options)
  List ctx label field := record (Call.List ctx label field) (b.List ctx label field)
  Get ctx name := record (Call.Get ctx name) (b.Get ctx name)
  Watch ctx label field rv := record (Call.Watch ctx label field rv) (b.Watch ctx label field rv)
  Create ctx obj := record (Call.Create ctx obj) (b.Create ctx obj)
  Update ctx obj := record (Call.Update ctx obj) (b.Update ctx obj)

/-! ## A scripted backend for concrete runs -/

/-- Concrete types: contexts and pointers are numbers, selectors and errors are
strings, the empty field selector matches everything. -/
abbrev demoApi : Api :=
  Api.mk Nat String String "" String Nat (List Nat) Nat Nat

/-- What the scripted backend answers to `Get`, by name. -/
def scriptedGet (name : String) : Object demoApi × Option demoApi.Error :=
  if name = "default" then (Object.Namespace (some (1 : Nat)), none)
  else if name = "typed-nil" then (Object.Namespace none, none)
  else if name = "nil" then (Object.nil, none)
  else if name = "list" then (Object.NamespaceList (some ([1, 2] : List Nat)), none)
  else if name = "stray" then (Object.other (5 : Nat), none)
  else if name = "stray-failed" then (Object.other (5 : Nat), some "conflict")
  else if name = "default-failed" then (Object.Namespace (some (1 : Nat)), some "timeout")
  else (Object.nil, some "not found")

/-- What the scripted backend answers to `List`, by label selector. -/
def scriptedList (label : String) : Object demoApi × Option demoApi.Error :=
  if label = "" then (Object.NamespaceList (some ([1, 2] : List Nat)), none)
  else if label = "typed-nil" then (Object.NamespaceList none, none)
  else if label = "nil" then (Object.nil, none)
  else if label = "single" then (Object.Namespace (some (1 : Nat)), none)
  else if label = "stray" then (Object.other (5 : Nat), none)
  else if label = "stray-failed" then (Object.other (5 : Nat), some "conflict")
  else (Object.nil, some "bad selector")

/-- The session the scripted backend opens: one event carrying a namespace, one
carrying an object of another kind. -/
def scriptedSession : WatchSession demoApi :=
  WatchSession.mk
    [Event.mk EventType.Added (Object.Namespace (some (1 : Nat))),
     Event.mk EventType.Modified (Object.other (5 : Nat))]

/-- What the scripted backend answers to a write (`Create`, `Update`,
`Delete`): "conflict" under context 1 and no error otherwise, with the object
given under even contexts and nil under odd ones. -/
def scriptedWrite (ctx : Nat) (obj : Object demoApi) : Object demoApi × Option demoApi.Error :=
  (if ctx % 2 = 0 then obj else Object.nil, if ctx = 1 then some "conflict" else none)

/-- What the scripted backend answers to `Watch`, by resource version. -/
def scriptedWatch (rv : String) : WatchInterface demoApi × Option demoApi.Error :=
  if rv = "gone" then (none, some "too old") else (some scriptedSession, none)

/-- A backend with scripted answers; its state counts the calls received. -/
def scripted : Storage demoApi Nat :=
  Storage.mk
    (fun ctx _ _ st => (Outcome.returned (scriptedWrite ctx (Object.other (0 : Nat))), st + 1))
    (fun _ label _ st => (Outcome.returned (scriptedList label), st + 1))
    (fun _ name st => (Outcome.returned (scriptedGet name), st + 1))
    (fun _ _ _ rv st => (Outcome.returned (scriptedWatch rv), st + 1))
    (fun ctx obj st => (Outcome.returned (scriptedWrite ctx obj), st + 1))
    (fun ctx obj st =>
      (Outcome.returned
        ((scriptedWrite ctx obj).1, decide (ctx % 4 = 0), (scriptedWrite ctx obj).2), st + 1))

/-! ## How the operations run -/

theorem NewRegistry_bind {A : Api} {σ α : Type} (s : Storage A σ) (f : Registry A σ → M σ α) :
    (NewRegistry s >>= f) = f (registryOf s) := rfl

theorem GetNamespace_failed {A : Api} {σ : Type} (s : Storage A σ) (ctx : A.Context)
    (name : String) (st st1 : σ) (obj : Object A) (e : A.Error)
    (h : s.Get ctx name st = (Outcome.returned (obj, some e), st1)) :
    (storage.mk s).GetNamespace ctx name st = (Outcome.returned (none, some e), st1) := by
  simp only [storage.GetNamespace, bind, M.bind, h]
  rfl

theorem GetNamespace_ok {A : Api} {σ : Type} (s : Storage A σ) (ctx : A.Context)
    (name : String) (st st1 : σ) (obj : Object A)
    (h : s.Get ctx name st = (Outcome.returned (obj, none), st1)) :
    (storage.mk s).GetNamespace ctx name st =
      match obj with
      | Object.Namespace p => (Outcome.returned (p, none), st1)
      | _ => (Outcome.panicked, st1) := by
  simp only [storage.GetNamespace, bind, M.bind, h]
  cases obj <;> rfl

theorem GetNamespace_panicked {A : Api} {σ : Type} (s : Storage A σ) (ctx : A.Context)
    (name : String) (st st1 : σ) (h : s.Get ctx name st = (Outcome.panicked, st1)) :
    (storage.mk s).GetNamespace ctx name st = (Outcome.panicked, st1) := by
  simp only [storage.GetNamespace, bind, M.bind, h]

theorem ListNamespaces_failed {A : Api} {σ : Type} (s : Storage A σ) (ctx : A.Context)
    (label : A.LabelSelector) (st st1 : σ) (obj : Object A) (e : A.Error)
    (h : s.List ctx label A.Everything st = (Outcome.returned (obj, some e), st1)) :
    (storage.mk s).ListNamespaces ctx label st = (Outcome.returned (none, some e), st1) := by
  simp only [storage.ListNamespaces, bind, M.bind, h]
  rfl

theorem ListNamespaces_ok {A : Api} {σ : Type} (s : Storage A σ) (ctx : A.Context)
    (label : A.LabelSelector) (st st1 : σ) (obj : Object A)
    (h : s.List ctx label A.Everything st = (Outcome.returned (obj, none), st1)) :
    (storage.mk s).ListNamespaces ctx label st =
      match obj with
      | Object.NamespaceList p => (Outcome.returned (p, none), st1)
      | _ => (Outcome.panicked, st1) := by
  simp only [storage.ListNamespaces, bind, M.bind, h]
  cases obj <;> rfl

theorem ListNamespaces_panicked {A : Api} {σ : Type} (s : Storage A σ) (ctx : A.Context)
    (label : A.LabelSelector) (st st1 : σ)
    (h : s.List ctx label A.Everything st = (Outcome.panicked, st1)) :
    (storage.mk s).ListNamespaces ctx label st = (Outcome.panicked, st1) := by
  simp only [storage.ListNamespaces, bind, M.bind, h]

/-! ## Read paths -/

/-- C1: on a nil error from the backend together with a non-nil object whose
dynamic kind is not `*api.Namespace` (for `Get`) or `*api.NamespaceList` (for
`List`), `GetNamespace` and `ListNamespaces` panic: the call ends in a panic,
so neither a value nor an error is returned. -/
theorem read_of_wrong_kind_panics {A : Api} {σ : Type} (s : Storage A σ) (ctx : A.Context)
    (st : σ) :
    (∀ (name : String) (obj : Object A) (st1 : σ),
      s.Get ctx name st = (Outcome.returned (obj, none), st1) →
      obj.isNil = false → obj.isNamespace = false →
      (NewRegistry s >>= fun r => r.GetNamespace ctx name) st = (Outcome.panicked, st1)) ∧
    (∀ (label : A.LabelSelector) (obj : Object A) (st1 : σ),
      s.List ctx label A.Everything st = (Outcome.returned (obj, none), st1) →
      obj.isNil = false → obj.isNamespaceList = false →
      (NewRegistry s >>= fun r => r.ListNamespaces ctx label) st = (Outcome.panicked, st1)) := by
  constructor
  · intro name obj st1 h _ hk
    rw [NewRegistry_bind]
    show (storage.mk s).GetNamespace ctx name st = _
    rw [GetNamespace_ok s ctx name st st1 obj h]
    cases obj <;> simp_all [Object.isNamespace]
  · intro label obj st1 h _ hk
    rw [NewRegistry_bind]
    show (storage.mk s).ListNamespaces ctx label st = _
    rw [ListNamespaces_ok s ctx label st st1 obj h]
    cases obj <;> simp_all [Object.isNamespaceList]

/-- The scripted backend answers `Get "stray"` and `List "stray"` with an object
of another kind and no error: both reads panic. -/
theorem read_of_wrong_kind_panics_witness :
    (NewRegistry scripted >>= fun r => r.GetNamespace 0 "stray") 0 = (Outcome.panicked, 1) ∧
    (NewRegistry scripted >>= fun r => r.GetNamespace 0 "list") 0 = (Outcome.panicked, 1) ∧
    (NewRegistry scripted >>= fun r => r.ListNamespaces 0 "stray") 0 = (Outcome.panicked, 1) ∧
    (NewRegistry scripted >>= fun r => r.ListNamespaces 0 "single") 0 =
      (Outcome.panicked, 1) :=
  ⟨(read_of_wrong_kind_panics scripted 0 0).1 "stray" (Object.other (5 : Nat)) 1 rfl rfl rfl,
   (read_of_wrong_kind_panics scripted 0 0).1 "list"
     (Object.NamespaceList (some ([1, 2] : List Nat))) 1 rfl rfl rfl,
   (read_of_wrong_kind_panics scripted 0 0).2 "stray" (Object.other (5 : Nat)) 1 rfl rfl rfl,
   (read_of_wrong_kind_panics scripted 0 0).2 "single"
     (Object.Namespace (some (1 : Nat))) 1 rfl rfl rfl⟩

/-- C2: on a non-nil error from the backend, `GetNamespace` and
`ListNamespaces` return exactly `(nil, err)` with the backend's own error
value, whatever object came with it; the call returns, it does not panic. -/
theorem read_error_surfaced {A : Api} {σ : Type} (s : Storage A σ) (ctx : A.Context)
    (st : σ) :
    (∀ (name : String) (obj : Object A) (e : A.Error) (st1 : σ),
      s.Get ctx name st = (Outcome.returned (obj, some e), st1) →
      (NewRegistry s >>= fun r => r.GetNamespace ctx name) st =
        (Outcome.returned (none, some e), st1)) ∧
    (∀ (label : A.LabelSelector) (obj : Object A) (e : A.Error) (st1 : σ),
      s.List ctx label A.Everything st = (Outcome.returned (obj, some e), st1) →
      (NewRegistry s >>= fun r => r.ListNamespaces ctx label) st =
        (Outcome.returned (none, some e), st1)) :=
  ⟨fun name obj e st1 h => GetNamespace_failed s ctx name st st1 obj e h,
   fun label obj e st1 h => ListNamespaces_failed s ctx label st st1 obj e h⟩

/-- The scripted backend fails with a nil object, with a namespace and with an
object of another kind: the error comes back each time, with a nil result. -/
theorem read_error_surfaced_witness :
    (NewRegistry scripted >>= fun r => r.GetNamespace 0 "absent") 0 =
      (Outcome.returned (none, some "not found"), 1) ∧
    (NewRegistry scripted >>= fun r => r.GetNamespace 0 "default-failed") 0 =
      (Outcome.returned (none, some "timeout"), 1) ∧
    (NewRegistry scripted >>= fun r => r.GetNamespace 0 "stray-failed") 0 =
      (Outcome.returned (none, some "conflict"), 1) ∧
    (NewRegistry scripted >>= fun r => r.ListNamespaces 0 "stray-failed") 0 =
      (Outcome.returned (none, some "conflict"), 1) :=
  ⟨(read_error_surfaced scripted 0 0).1 "absent" Object.nil "not found" 1 rfl,
   (read_error_surfaced scripted 0 0).1 "default-failed" (Object.Namespace (some (1 : Nat)))
     "timeout" 1 rfl,
   (read_error_surfaced scripted 0 0).1 "stray-failed" (Object.other (5 : Nat)) "conflict" 1 rfl,
   (read_error_surfaced scripted 0 0).2 "stray-failed" (Object.other (5 : Nat)) "conflict" 1 rfl⟩

/-- C4: when the backend's `Get` returns a `*api.Namespace` and its `List` a
`*api.NamespaceList`, each with a nil error, `GetNamespace` and `ListNamespaces`
return that very pointer with a nil error. -/
theorem read_returns_backend_object {A : Api} {σ : Type} (s : Storage A σ) (ctx : A.Context)
    (st : σ) :
    (∀ (name : String) (p : Option A.Namespace) (st1 : σ),
      s.Get ctx name st = (Outcome.returned (Object.Namespace p, none), st1) →
      (NewRegistry s >>= fun r => r.GetNamespace ctx name) st =
        (Outcome.returned (p, none), st1)) ∧
    (∀ (label : A.LabelSelector) (p : Option A.NamespaceList) (st1 : σ),
      s.List ctx label A.Everything st = (Outcome.returned (Object.NamespaceList p, none), st1) →
      (NewRegistry s >>= fun r => r.ListNamespaces ctx label) st =
        (Outcome.returned (p, none), st1)) :=
  ⟨fun name p st1 h => GetNamespace_ok s ctx name st st1 (Object.Namespace p) h,
   fun label p st1 h => ListNamespaces_ok s ctx label st st1 (Object.NamespaceList p) h⟩

/-- The scripted backend stores namespace 1 under "default" and lists
namespaces 1 and 2: both come back as they are. -/
theorem read_returns_backend_object_witness :
    (NewRegistry scripted >>= fun r => r.GetNamespace 0 "default") 0 =
      (Outcome.returned (some 1, none), 1) ∧
    (NewRegistry scripted >>= fun r => r.ListNamespaces 0 "") 0 =
      (Outcome.returned (some [1, 2], none), 1) :=
  ⟨(read_returns_backend_object scripted 0 0).1 "default" (some (1 : Nat)) 1 rfl,
   (read_returns_backend_object scripted 0 0).2 "" (some ([1, 2] : List Nat)) 1 rfl⟩

/-- C10: a nil object with a nil error from the backend makes `GetNamespace`
and `ListNamespaces` panic; and whenever either returns with a nil error, the
backend had returned, with a nil error, a non-nil interface value of dynamic
kind `*api.Namespace` (resp. `*api.NamespaceList`), holding the pointer
returned. -/
theorem read_of_nil_panics {A : Api} {σ : Type} (s : Storage A σ) (ctx : A.Context)
    (st : σ) :
    (∀ (name : String) (st1 : σ),
      s.Get ctx name st = (Outcome.returned (Object.nil, none), st1) →
      (NewRegistry s >>= fun r => r.GetNamespace ctx name) st = (Outcome.panicked, st1)) ∧
    (∀ (label : A.LabelSelector) (st1 : σ),
      s.List ctx label A.Everything st = (Outcome.returned (Object.nil, none), st1) →
      (NewRegistry s >>= fun r => r.ListNamespaces ctx label) st = (Outcome.panicked, st1)) ∧
    (∀ (name : String) (p : Option A.Namespace) (st1 : σ),
      (NewRegistry s >>= fun r => r.GetNamespace ctx name) st =
        (Outcome.returned (p, none), st1) →
      ∃ obj, s.Get ctx name st = (Outcome.returned (obj, none), st1) ∧
        obj.isNil = false ∧ obj.isNamespace = true ∧ obj = Object.Namespace p) ∧
    (∀ (label : A.LabelSelector) (p : Option A.NamespaceList) (st1 : σ),
      (NewRegistry s >>= fun r => r.ListNamespaces ctx label) st =
        (Outcome.returned (p, none), st1) →
      ∃ obj, s.List ctx label A.Everything st = (Outcome.returned (obj, none), st1) ∧
        obj.isNil = false ∧ obj.isNamespaceList = true ∧ obj = Object.NamespaceList p) := by
  refine ⟨fun name st1 h => GetNamespace_ok s ctx name st st1 Object.nil h,
    fun label st1 h => ListNamespaces_ok s ctx label st st1 Object.nil h, ?_, ?_⟩
  · intro name p st1 h
    rw [NewRegistry_bind] at h
    change (storage.mk s).GetNamespace ctx name st = _ at h
    rcases hb : s.Get ctx name st with ⟨⟨obj, _ | e⟩ | _, st2⟩
    · rw [GetNamespace_ok s ctx name st st2 obj hb] at h
      cases obj <;> simp at h
      obtain ⟨rfl, rfl⟩ := h
      exact ⟨_, rfl, rfl, rfl, rfl⟩
    · rw [GetNamespace_failed s ctx name st st2 obj e hb] at h
      simp at h
    · rw [GetNamespace_panicked s ctx name st st2 hb] at h
      simp at h
  · intro label p st1 h
    rw [NewRegistry_bind] at h
    change (storage.mk s).ListNamespaces ctx label st = _ at h
    rcases hb : s.List ctx label A.Everything st with ⟨⟨obj, _ | e⟩ | _, st2⟩
    · rw [ListNamespaces_ok s ctx label st st2 obj hb] at h
      cases obj <;> simp at h
      obtain ⟨rfl, rfl⟩ := h
      exact ⟨_, rfl, rfl, rfl, rfl⟩
    · rw [ListNamespaces_failed s ctx label st st2 obj e hb] at h
      simp at h
    · rw [ListNamespaces_panicked s ctx label st st2 hb] at h
      simp at h

/-- The scripted backend answers `Get "nil"` and `List "nil"` with a nil object
and a nil error, and both reads panic; `Get "default"` returns normally, from a
backend object of kind `*api.Namespace`. -/
theorem read_of_nil_panics_witness :
    (NewRegistry scripted >>= fun r => r.GetNamespace 0 "nil") 0 = (Outcome.panicked, 1) ∧
    (NewRegistry scripted >>= fun r => r.ListNamespaces 0 "nil") 0 = (Outcome.panicked, 1) ∧
    (∃ obj, scripted.Get 0 "default" 0 = (Outcome.returned (obj, none), 1) ∧
        obj.isNil = false ∧ obj.isNamespace = true ∧ obj = Object.Namespace (some 1)) ∧
    (∃ obj, scripted.List 0 "" demoApi.Everything 0 = (Outcome.returned (obj, none), 1) ∧
        obj.isNil = false ∧ obj.isNamespaceList = true ∧
        obj = Object.NamespaceList (some [1, 2])) :=
  ⟨(read_of_nil_panics scripted 0 0).1 "nil" 1 rfl,
   (read_of_nil_panics scripted 0 0).2.1 "nil" 1 rfl,
   (read_of_nil_panics scripted 0 0).2.2.1 "default" (some (1 : Nat)) 1 rfl,
   (read_of_nil_panics scripted 0 0).2.2.2 "" (some ([1, 2] : List Nat)) 1 rfl⟩

/-- A nil `*api.Namespace` held in a non-nil interface passes the type
assertion: the read returns a nil pointer with a nil error. -/
theorem read_of_typed_nil_returns :
    (NewRegistry scripted >>= fun r => r.GetNamespace 0 "typed-nil") 0 =
      (Outcome.returned (none, none), 1) ∧
    (NewRegistry scripted >>= fun r => r.ListNamespaces 0 "typed-nil") 0 =
      (Outcome.returned (none, none), 1) :=
  ⟨rfl, rfl⟩

/-! ## Write paths -/

/-- C3: `CreateNamespace`, `UpdateNamespace` and `DeleteNamespace` return
exactly the error the backend's `Create`, `Update` and `Delete` returned (nil
for nil); two backends whose responses differ only in the object returned or in
the created flag give the same result. -/
theorem write_returns_backend_error {A : Api} {σ : Type} (s : Storage A σ) (ctx : A.Context)
    (st : σ) :
    (∀ (ns : Option A.Namespace) (obj : Object A) (err : Option A.Error) (st1 : σ),
      s.Create ctx (Object.Namespace ns) st = (Outcome.returned (obj, err), st1) →
      (NewRegistry s >>= fun r => r.CreateNamespace ctx ns) st = (Outcome.returned err, st1)) ∧
    (∀ (ns : Option A.Namespace) (obj : Object A) (created : Bool) (err : Option A.Error)
      (st1 : σ),
      s.Update ctx (Object.Namespace ns) st = (Outcome.returned (obj, created, err), st1) →
      (NewRegistry s >>= fun r => r.UpdateNamespace ctx ns) st = (Outcome.returned err, st1)) ∧
    (∀ (name : String) (obj : Object A) (err : Option A.Error) (st1 : σ),
      s.Delete ctx name none st = (Outcome.returned (obj, err), st1) →
      (NewRegistry s >>= fun r => r.DeleteNamespace ctx name) st = (Outcome.returned err, st1)) ∧
    (∀ (t : Storage A σ) (ns : Option A.Namespace) (obj obj2 : Object A)
      (err : Option A.Error) (st1 : σ),
      s.Create ctx (Object.Namespace ns) st = (Outcome.returned (obj, err), st1) →
      t.Create ctx (Object.Namespace ns) st = (Outcome.returned (obj2, err), st1) →
      (NewRegistry s >>= fun r => r.CreateNamespace ctx ns) st =
        (NewRegistry t >>= fun r => r.CreateNamespace ctx ns) st) ∧
    (∀ (t : Storage A σ) (ns : Option A.Namespace) (obj obj2 : Object A)
      (created created2 : Bool) (err : Option A.Error) (st1 : σ),
      s.Update ctx (Object.Namespace ns) st = (Outcome.returned (obj, created, err), st1) →
      t.Update ctx (Object.Namespace ns) st = (Outcome.returned (obj2, created2, err), st1) →
      (NewRegistry s >>= fun r => r.UpdateNamespace ctx ns) st =
        (NewRegistry t >>= fun r => r.UpdateNamespace ctx ns) st) ∧
    (∀ (t : Storage A σ) (name : String) (obj obj2 : Object A) (err : Option A.Error)
      (st1 : σ),
      s.Delete ctx name none st = (Outcome.returned (obj, err), st1) →
      t.Delete ctx name none st = (Outcome.returned (obj2, err), st1) →
      (NewRegistry s >>= fun r => r.DeleteNamespace ctx name) st =
        (NewRegistry t >>= fun r => r.DeleteNamespace ctx name) st) := by
  have hc : ∀ (u : Storage A σ) (ns : Option A.Namespace) (obj : Object A)
      (err : Option A.Error) (st1 : σ),
      u.Create ctx (Object.Namespace ns) st = (Outcome.returned (obj, err), st1) →
      (NewRegistry u >>= fun r => r.CreateNamespace ctx ns) st =
        (Outcome.returned err, st1) := by
    intro u ns obj err st1 h
    rw [NewRegistry_bind]
    show (storage.mk u).CreateNamespace ctx ns st = _
    simp only [storage.CreateNamespace, bind, M.bind, h]
    rfl
  have hu : ∀ (u : Storage A σ) (ns : Option A.Namespace) (obj : Object A) (created : Bool)
      (err : Option A.Error) (st1 : σ),
      u.Update ctx (Object.Namespace ns) st = (Outcome.returned (obj, created, err), st1) →
      (NewRegistry u >>= fun r => r.UpdateNamespace ctx ns) st =
        (Outcome.returned err, st1) := by
    intro u ns obj created err st1 h
    rw [NewRegistry_bind]
    show (storage.mk u).UpdateNamespace ctx ns st = _
    simp only [storage.UpdateNamespace, bind, M.bind, h]
    rfl
  have hd : ∀ (u : Storage A σ) (name : String) (obj : Object A) (err : Option A.Error)
      (st1 : σ),
      u.Delete ctx name none st = (Outcome.returned (obj, err), st1) →
      (NewRegistry u >>= fun r => r.DeleteNamespace ctx name) st =
        (Outcome.returned err, st1) := by
    intro u name obj err st1 h
    rw [NewRegistry_bind]
    show (storage.mk u).DeleteNamespace ctx name st = _
    simp only [storage.DeleteNamespace, bind, M.bind, h]
    rfl
  exact ⟨hc s, hu s, hd s,
    fun t ns obj obj2 err st1 h1 h2 =>
      (hc s ns obj err st1 h1).trans (hc t ns obj2 err st1 h2).symm,
    fun t ns obj obj2 created created2 err st1 h1 h2 =>
      (hu s ns obj created err st1 h1).trans (hu t ns obj2 created2 err st1 h2).symm,
    fun t name obj obj2 err st1 h1 h2 =>
      (hd s name obj err st1 h1).trans (hd t name obj2 err st1 h2).symm⟩

/-- The scripted backend under context 1 fails every write with "conflict" and
under context 4 succeeds: the facade returns that error, resp. nil. Under
contexts 4 and 3 the backend's `Update` succeeds with different objects and
created flags, and `UpdateNamespace` returns the same nil error. -/
theorem write_returns_backend_error_witness :
    (NewRegistry scripted >>= fun r => r.CreateNamespace 1 (some 7)) 0 =
      (Outcome.returned (some "conflict"), 1) ∧
    (NewRegistry scripted >>= fun r => r.UpdateNamespace 1 (some 7)) 0 =
      (Outcome.returned (some "conflict"), 1) ∧
    (NewRegistry scripted >>= fun r => r.DeleteNamespace 1 "default") 0 =
      (Outcome.returned (some "conflict"), 1) ∧
    (NewRegistry scripted >>= fun r => r.CreateNamespace 4 (some 7)) 0 =
      (Outcome.returned none, 1) ∧
    (NewRegistry scripted >>= fun r => r.UpdateNamespace 4 (some 7)) 0 =
      (Outcome.returned none, 1) ∧
    (NewRegistry scripted >>= fun r => r.UpdateNamespace 3 (some 7)) 0 =
      (Outcome.returned none, 1) ∧
    (NewRegistry scripted >>= fun r => r.DeleteNamespace 4 "default") 0 =
      (Outcome.returned none, 1) :=
  ⟨(write_returns_backend_error scripted 1 0).1 (some (7 : Nat)) Object.nil (some "conflict") 1
     rfl,
   (write_returns_backend_error scripted 1 0).2.1 (some (7 : Nat)) Object.nil false
     (some "conflict") 1 rfl,
   (write_returns_backend_error scripted 1 0).2.2.1 "default" Object.nil (some "conflict") 1 rfl,
   (write_returns_backend_error scripted 4 0).1 (some (7 : Nat))
     (Object.Namespace (some (7 : Nat))) none 1 rfl,
   (write_returns_backend_error scripted 4 0).2.1 (some (7 : Nat))
     (Object.Namespace (some (7 : Nat))) true none 1 rfl,
   (write_returns_backend_error scripted 3 0).2.1 (some (7 : Nat)) Object.nil false none 1 rfl,
   (write_returns_backend_error scripted 4 0).2.2.1 "default" (Object.other (0 : Nat)) none 1
     rfl⟩

/-! ## Pass-through and the calls made of the backend -/

/-- C6: `WatchNamespaces` is the backend's `Watch` with the same four
arguments: the same session, the same error and the same state from every
state, and a panic exactly where the backend panics. -/
theorem watch_is_backend_watch {A : Api} {σ : Type} (s : Storage A σ) (ctx : A.Context)
    (label : A.LabelSelector) (field : A.FieldSelector) (resourceVersion : String) :
    (NewRegistry s >>= fun r => r.WatchNamespaces ctx label field resourceVersion) =
      s.Watch ctx label field resourceVersion :=
  rfl

/-- C5: `ListNamespaces ctx sel` makes of the backend the call
`List ctx sel fields.Everything()`: the logging backend receives exactly that
call, and the outcome depends on the backend only through its answer to it. -/
theorem list_calls_with_everything {A : Api} {σ : Type} (b : Storage A σ) (ctx : A.Context)
    (label : A.LabelSelector) (st : σ) (log : List (Call A)) :
    ((NewRegistry (recording b) >>= fun r => r.ListNamespaces ctx label) (st, log)).2.2 =
      log ++ [Call.List ctx label A.Everything] ∧
    (∀ t : Storage A σ, t.List ctx label A.Everything st = b.List ctx label A.Everything st →
      (NewRegistry t >>= fun r => r.ListNamespaces ctx label) st =
        (NewRegistry b >>= fun r => r.ListNamespaces ctx label) st) := by
  constructor
  · rw [NewRegistry_bind]
    show ((storage.mk (recording b)).ListNamespaces ctx label (st, log)).2.2 = _
    simp only [storage.ListNamespaces, bind, M.bind, recording, record]
    rcases b.List ctx label A.Everything st with ⟨⟨obj, _ | e⟩ | _, st1⟩
    · cases obj <;> rfl
    · rfl
    · rfl
  · intro t h
    rw [NewRegistry_bind, NewRegistry_bind]
    show (storage.mk t).ListNamespaces ctx label st = (storage.mk b).ListNamespaces ctx label st
    simp only [storage.ListNamespaces, bind, M.bind, h]

/-- Two listings through the scripted backend behind a log: the log holds the
call with the match-everything field selector, and a backend that agrees with
the scripted one on that call gives the same listing. -/
theorem list_calls_with_everything_witness :
    ((NewRegistry (recording scripted) >>= fun r => r.ListNamespaces 3 "env=prod")
        (0, [])).2.2 = [Call.List 3 "env=prod" ""] ∧
    (NewRegistry (Storage.mk scripted.Delete (fun _ _ _ => scripted.List 0 "" "") scripted.Get
        scripted.Watch scripted.Create scripted.Update) >>=
      fun r => r.ListNamespaces 0 "") 5 =
      (NewRegistry scripted >>= fun r => r.ListNamespaces 0 "") 5 :=
  ⟨(list_calls_with_everything scripted 3 "env=prod" 0 []).1,
   (list_calls_with_everything scripted 0 "" 5 []).2 _ rfl⟩

/-- C7: `DeleteNamespace ctx n` makes of the backend the call
`Delete ctx n nil`, for every name, the empty one included: the logging backend
receives exactly that call. -/
theorem delete_calls_without_options {A : Api} {σ : Type} (b : Storage A σ) (ctx : A.Context)
    (name : String) (st : σ) (log : List (Call A)) :
    ((NewRegistry (recording b) >>= fun r => r.DeleteNamespace ctx name) (st, log)).2.2 =
      log ++ [Call.Delete ctx name none] ∧
    ((NewRegistry (recording b) >>= fun r => r.DeleteNamespace ctx "") (st, log)).2.2 =
      log ++ [Call.Delete ctx "" none] := by
  have h : ∀ n : String,
      ((NewRegistry (recording b) >>= fun r => r.DeleteNamespace ctx n) (st, log)).2.2 =
        log ++ [Call.Delete ctx n none] := by
    intro n
    rw [NewRegistry_bind]
    show ((storage.mk (recording b)).DeleteNamespace ctx n (st, log)).2.2 = _
    simp only [storage.DeleteNamespace, bind, M.bind, recording, record]
    rcases b.Delete ctx n none st with ⟨⟨obj, err⟩ | _, st1⟩ <;> rfl
  exact ⟨h name, h ""⟩

/-- The logging backend receives `Delete 2 "" nil` for the empty name. -/
theorem delete_calls_without_options_witness :
    ((NewRegistry (recording scripted) >>= fun r => r.DeleteNamespace 2 "kube-system")
        (0, [Call.Get 2 "kube-system"])).2.2 =
      [Call.Get 2 "kube-system", Call.Delete 2 "kube-system" none] ∧
    ((NewRegistry (recording scripted) >>= fun r => r.DeleteNamespace 2 "")
        (0, [Call.Get 2 "kube-system"])).2.2 =
      [Call.Get 2 "kube-system", Call.Delete 2 "" none] :=
  delete_calls_without_options scripted 2 "kube-system" 0 [Call.Get 2 "kube-system"]

/-- C9: over a backend that logs the calls it receives, `NewRegistry` returns a
registry and leaves the log and the backend state as they were, and each of the
six operations adds exactly one entry to the log, the call of the same name,
however the backend's call ends (value, error or panic). -/
theorem one_backend_call_each {A : Api} {σ : Type} (b : Storage A σ) (ctx : A.Context)
    (label : A.LabelSelector) (field : A.FieldSelector) (resourceVersion name : String)
    (ns : Option A.Namespace) (st : σ) (log : List (Call A)) :
    NewRegistry (recording b) (st, log) =
      (Outcome.returned (registryOf (recording b)), (st, log)) ∧
    ((NewRegistry (recording b) >>= fun r => r.ListNamespaces ctx label) (st, log)).2.2 =
      log ++ [Call.List ctx label A.Everything] ∧
    ((NewRegistry (recording b) >>= fun r => r.WatchNamespaces ctx label field resourceVersion)
        (st, log)).2.2 = log ++ [Call.Watch ctx label field resourceVersion] ∧
    ((NewRegistry (recording b) >>= fun r => r.GetNamespace ctx name) (st, log)).2.2 =
      log ++ [Call.Get ctx name] ∧
    ((NewRegistry (recording b) >>= fun r => r.CreateNamespace ctx ns) (st, log)).2.2 =
      log ++ [Call.Create ctx (Object.Namespace ns)] ∧
    ((NewRegistry (recording b) >>= fun r => r.UpdateNamespace ctx ns) (st, log)).2.2 =
      log ++ [Call.Update ctx (Object.Namespace ns)] ∧
    ((NewRegistry (recording b) >>= fun r => r.DeleteNamespace ctx name) (st, log)).2.2 =
      log ++ [Call.Delete ctx name none] := by
  refine ⟨rfl, ?_, rfl, ?_, ?_, ?_, ?_⟩
  · rw [NewRegistry_bind]
    show ((storage.mk (recording b)).ListNamespaces ctx label (st, log)).2.2 = _
    simp only [storage.ListNamespaces, bind, M.bind, recording, record]
    rcases b.List ctx label A.Everything st with ⟨⟨obj, _ | e⟩ | _, st1⟩
    · cases obj <;> rfl
    · rfl
    · rfl
  · rw [NewRegistry_bind]
    show ((storage.mk (recording b)).GetNamespace ctx name (st, log)).2.2 = _
    simp only [storage.GetNamespace, bind, M.bind, recording, record]
    rcases b.Get ctx name st with ⟨⟨obj, _ | e⟩ | _, st1⟩
    · cases obj <;> rfl
    · rfl
    · rfl
  · rw [NewRegistry_bind]
    show ((storage.mk (recording b)).CreateNamespace ctx ns (st, log)).2.2 = _
    simp only [storage.CreateNamespace, bind, M.bind, recording, record]
    rcases b.Create ctx (Object.Namespace ns) st with ⟨⟨obj, err⟩ | _, st1⟩ <;> rfl
  · rw [NewRegistry_bind]
    show ((storage.mk (recording b)).UpdateNamespace ctx ns (st, log)).2.2 = _
    simp only [storage.UpdateNamespace, bind, M.bind, recording, record]
    rcases b.Update ctx (Object.Namespace ns) st with ⟨⟨obj, created, err⟩ | _, st1⟩ <;> rfl
  · rw [NewRegistry_bind]
    show ((storage.mk (recording b)).DeleteNamespace ctx name (st, log)).2.2 = _
    simp only [storage.DeleteNamespace, bind, M.bind, recording, record]
    rcases b.Delete ctx name none st with ⟨⟨obj, err⟩ | _, st1⟩ <;> rfl

/-! ## Watch sessions are not narrowed -/

/-- C8: the claim asks that an event of a watch session carrying an object of
another kind make the facade panic, as the comment on `NewRegistry` promises
("Any mismatched types will panic"). The code does not do so: the scripted
backend's session delivers a `Modified` event carrying an object that is neither
nil nor a namespace, and `WatchNamespaces` returns that very session to the
caller with a nil error and without a panic. -/
theorem watch_hands_out_unchecked_session :
    (NewRegistry scripted >>= fun r => r.WatchNamespaces 0 "" "" "") 0 =
      (Outcome.returned (some scriptedSession, none), 1) ∧
    ∃ ev ∈ scriptedSession.ResultChan,
      ev.Object.isNil = false ∧ ev.Object.isNamespace = false :=
  ⟨rfl, Event.mk EventType.Modified (Object.other (5 : Nat)), by simp [scriptedSession], rfl, rfl⟩

end NamespaceRegistry
